import Mathlib

/-!
Shallow embedding of the BotHost control plane (`src/main.py`).

The embedding models the persisted registry (SQLite table `bots`) as a list
of rows, the per-instance artifact storage as an association list from file
path to file contents, and the Docker backend as explicit parameters telling
each operation whether its backend calls succeed (the backend is an external
collaborator; its outcomes are inputs to the control flow of the orchestrator).

Each HTTP endpoint of `main.py` becomes a function from a state and its
request data to a result (`Except ApiError ...`, mirroring `raise
HTTPException` vs. a normal return) paired with the post-state.
-/

namespace BotHost

/-- Configuration constant `DOCKER_IMAGE` from `main.py`. -/
def DOCKER_IMAGE : String := "python:3.11-slim"

/-- Configuration constant `BASE_DOMAIN` from `main.py`. -/
def BASE_DOMAIN : String := "bothost.local"

/-- Configuration constant `PORT_START` from `main.py`. -/
def PORT_START : Nat := 5001

/-- A row of the `bots` table (`BotModel` in `main.py`).  `created_at` is a
wall-clock timestamp and is omitted: no claim and no control flow reads it. -/
structure Bot where
  id : Nat
  name : String
  token : String
  user_id : String
  port : Nat
  container_id : String
  webhook_url : String
  is_running : Nat
deriving DecidableEq, Repr

/-- Request body of `POST /api/bots/create` (`CreateBotRequest`). -/
structure CreateBotRequest where
  name : String
  token : String
  user_id : String
deriving DecidableEq, Repr

/-- The JSON object returned by a successful `create_bot`. -/
structure CreateResponse where
  id : Nat
  name : String
  webhook_url : String
  message : String
deriving DecidableEq, Repr

/-- The error outcomes an endpoint can produce.  The first four correspond to
`raise HTTPException(...)` sites in `main.py`; `loggerNameError` is the
uncaught `NameError` raised inside the `except` block of `delete_bot`, where
`logger.error(...)` references a name `logger` that `main.py` never defines
(no `import logging`, no module-level `logger =` assignment). -/
inductive ApiError where
  | duplicateName
  | notFound
  | dockerError
  | restartError
  | loggerNameError
deriving DecidableEq, Repr

/-- HTTP status each error surfaces as: `HTTPException(status_code=...)` for
the first four; an uncaught `NameError` becomes a 500 Internal Server Error. -/
def ApiError.statusCode : ApiError → Nat
  | .duplicateName => 400
  | .notFound => 404
  | .dockerError => 500
  | .restartError => 500
  | .loggerNameError => 500

/-- The whole mutable state the endpoints touch: the persisted registry rows
(in insertion order, as SQLite returns them) and the artifact files written
under `/tmp/bots/` (path ↦ contents, last write wins). -/
structure State where
  bots : List Bot
  fs : List (String × String)
deriving DecidableEq, Repr

/-- The empty initial state: fresh database, nothing under `/tmp/bots`. -/
def initState : State := { bots := [], fs := [] }

/-- Overwriting file write: `open(path, "w")` followed by `f.write(content)`. -/
def fsWrite (fs : List (String × String)) (path content : String) :
    List (String × String) :=
  (path, content) :: fs.filter (fun e => e.1 != path)

/-- Read a file back: the most recent write to `path`, if any. -/
def fsRead (fs : List (String × String)) (path : String) : Option String :=
  (fs.find? (fun e => e.1 == path)).map (fun e => e.2)

/-- `db.query(BotModel).filter(BotModel.name == name).first()`. -/
def find_by_name (bots : List Bot) (name : String) : Option Bot :=
  bots.find? (fun b => b.name == name)

/-- `db.query(BotModel).filter(BotModel.id == bot_id).first()`. -/
def find_by_id (bots : List Bot) (bot_id : Nat) : Option Bot :=
  bots.find? (fun b => b.id == bot_id)

/-- SQLite rowid allocation for an INTEGER PRIMARY KEY insert: one more than
the largest id currently in the table (1 on an empty table). -/
def next_row_id (bots : List Bot) : Nat :=
  (bots.foldl (fun m b => max m b.id) 0) + 1

/-- `get_next_available_port`: the row with the largest `port`
(`order_by(BotModel.port.desc()).first()`) determines the result — its port
plus one — and an empty table yields `PORT_START`. -/
def get_next_available_port (bots : List Bot) : Nat :=
  match bots with
  | [] => PORT_START
  | b :: bs => (bs.foldl (fun m x => max m x.port) b.port) + 1

/-- Template text of `create_bot_code` up to the `{token}` interpolation. -/
def botCodePre : String :=
  "#!/usr/bin/env python3\nimport logging\nfrom telegram import Update\nfrom telegram.ext import Application, CommandHandler, MessageHandler, filters, ContextTypes\nfrom flask import Flask, request\nimport json\nimport os\n\napp = Flask(__name__)\n\nlogging.basicConfig(level=logging.INFO)\nlogger = logging.getLogger(__name__)\n\nTOKEN = \""

/-- Template text between the `{token}` and `{webhook_url}` interpolations. -/
def botCodeMid : String := "\"\nWEBHOOK_URL = \""

/-- Template text after the `{webhook_url}` interpolation. -/
def botCodeSuf : String :=
  "\"\n\napplication = None\n\n@app.route(\x27/webhook\x27, methods=[\x27POST\x27])\nasync def webhook():\n    update_data = request.get_json()\n    update = Update.de_json(update_data, application.bot)\n    await application.process_update(update)\n    return \x7b\"ok\": True\x7d\n\n@app.route(\x27/health\x27, methods=[\x27GET\x27])\ndef health():\n    return \x7b\"status\": \"БОТ РАБОТАЕТ 24/7 ✅\"\x7d\n\nasync def start(update: Update, context: ContextTypes.DEFAULT_TYPE):\n    await update.message.reply_text(\"👋 Привет! Я работаю 24/7 на BotHost!\")\n\nasync def main():\n    global application\n    application = Application.builder().token(TOKEN).build()\n    \n    application.add_handler(CommandHandler(\"start\", start))\n    \n    async with application:\n        await application.bot.set_webhook(WEBHOOK_URL)\n        await application.start()\n        \nif __name__ == \x27__main__\x27:\n    import asyncio\n    asyncio.run(main())\n    app.run(host=\x270.0.0.0\x27, port=5000)\n"

/-- `create_bot_code(token, webhook_url)`: the f-string template of `main.py`
with the two parameters interpolated verbatim. -/
def create_bot_code (token webhook_url : String) : String :=
  botCodePre ++ token ++ botCodeMid ++ webhook_url ++ botCodeSuf

/-- The fixed `requirements.txt` contents written by `create_bot`. -/
def requirements_text : String :=
  "python-telegram-bot==20.7\nflask==3.0.0\nrequests==2.31.0\nsqlalchemy==2.0.0\n"

/-- `POST /api/bots/create`.  `launchResult` is the outcome at the Docker backend:
`some cid` when `client.containers.run(...)` returns a container with id
`cid`, `none` when it raises (turned into HTTP 500 by the `except` block).
Mirrors `create_bot` step by step: duplicate-name check, port allocation,
webhook URL derivation, artifact rendering and file writes (these happen
before the launch attempt), launch, and only on launch success the row
insert. -/
def create_bot (launchResult : Option String) (st : State)
    (req : CreateBotRequest) : Except ApiError CreateResponse × State :=
  match find_by_name st.bots req.name with
  | some _ => (.error .duplicateName, st)
  | none =>
    let port := get_next_available_port st.bots
    let webhook_url := "https://" ++ req.name ++ "." ++ BASE_DOMAIN ++ "/webhook"
    let bot_code := create_bot_code req.token webhook_url
    let bot_dir := "/tmp/bots/" ++ req.name
    let fs1 := fsWrite st.fs (bot_dir ++ "/bot_server.py") bot_code
    let fs2 := fsWrite fs1 (bot_dir ++ "/requirements.txt") requirements_text
    let st1 : State := { st with fs := fs2 }
    match launchResult with
    | none => (.error .dockerError, st1)
    | some container_id =>
      let db_bot : Bot :=
        { id := next_row_id st.bots
          name := req.name
          token := req.token
          user_id := req.user_id
          port := port
          container_id := container_id
          webhook_url := webhook_url
          is_running := 1 }
      (.ok { id := db_bot.id, name := db_bot.name,
             webhook_url := db_bot.webhook_url,
             message := "✅ Бот создан и запущен!" },
       { st1 with bots := st1.bots ++ [db_bot] })

/-- `GET /api/bots?user_id=`: all rows of this owner, in storage order. -/
def list_bots (st : State) (user_id : String) : List Bot :=
  st.bots.filter (fun b => b.user_id == user_id)

/-- `GET /api/bots/{bot_id}`: the row, or 404. -/
def get_bot (st : State) (bot_id : Nat) : Except ApiError Bot :=
  match find_by_id st.bots bot_id with
  | none => .error .notFound
  | some b => .ok b

/-- `DELETE /api/bots/{bot_id}`.  `teardownOk` is the backend outcome of the
`container.stop(); container.remove()` pair: when it is `false` the `except`
block runs and its `logger.error(...)` raises an uncaught `NameError`
(`logger` is undefined in `main.py`), so the handler aborts before
`db.delete(bot)` — the row survives and the client sees a 500. -/
def delete_bot (teardownOk : Bool) (st : State) (bot_id : Nat) :
    Except ApiError String × State :=
  match find_by_id st.bots bot_id with
  | none => (.error .notFound, st)
  | some _ =>
    if teardownOk then
      (.ok "✅ Бот удален", { st with bots := st.bots.filter (fun b => b.id != bot_id) })
    else
      (.error .loggerNameError, st)

/-- `POST /api/bots/{bot_id}/restart`.  `restartOk` is the backend outcome of
`container.restart()`; failure becomes HTTP 500.  The database is never
touched past the lookup. -/
def restart_bot (restartOk : Bool) (st : State) (bot_id : Nat) :
    Except ApiError String × State :=
  match find_by_id st.bots bot_id with
  | none => (.error .notFound, st)
  | some _ =>
    if restartOk then (.ok "✅ Бот перезагружен", st)
    else (.error .restartError, st)

/-- One state-mutating API call together with its backend outcome. -/
inductive Cmd where
  | create (launchResult : Option String) (req : CreateBotRequest)
  | deleteB (teardownOk : Bool) (bot_id : Nat)
  | restartB (restartOk : Bool) (bot_id : Nat)
deriving DecidableEq, Repr

/-- Post-state of one API call. -/
def stepCmd (st : State) : Cmd → State
  | .create lr req => (create_bot lr st req).2
  | .deleteB ok i => (delete_bot ok st i).2
  | .restartB ok i => (restart_bot ok st i).2

/-- Run a sequence of API calls. -/
def run (cmds : List Cmd) (st : State) : State :=
  cmds.foldl stepCmd st

/-- The ports handed out by the allocator to the creates that succeed, in
call order. -/
def run_ports : List Cmd → State → List Nat
  | [], _ => []
  | c :: cs, st =>
    match c with
    | .create lr req =>
      match (create_bot lr st req).1 with
      | .ok _ => get_next_available_port st.bots :: run_ports cs (stepCmd st c)
      | .error _ => run_ports cs (stepCmd st c)
    | _ => run_ports cs (stepCmd st c)

/-- Is this command a create call? -/
def Cmd.isCreate : Cmd → Bool
  | .create _ _ => true
  | _ => false

/-- Concrete request fixture: the create("alpha","tok1","u1"). -/
def reqA : CreateBotRequest := { name := "alpha", token := "tok1", user_id := "u1" }

/-- Concrete request fixture: the create("beta","tok2","u1"). -/
def reqB : CreateBotRequest := { name := "beta", token := "tok2", user_id := "u1" }

/-- Concrete request fixture: a third create for the port-reuse scenario. -/
def reqC : CreateBotRequest := { name := "gamma", token := "tok3", user_id := "u1" }

/-- The row that `create_bot (some "c1") initState reqA` inserts. -/
def botA : Bot :=
  { id := 1, name := "alpha", token := "tok1", user_id := "u1", port := 5001,
    container_id := "c1", webhook_url := "https://alpha.bothost.local/webhook",
    is_running := 1 }

/-- A one-row registry state holding `botA` (fresh filesystem). -/
def stA : State := { bots := [botA], fs := [] }

/-- Scenario state after create("alpha","tok1","u1") from empty. -/
def scnSt1 : State := (create_bot (some "c1") initState reqA).2

/-- Scenario state after the following create("beta","tok2","u1"). -/
def scnSt2 : State := (create_bot (some "c2") scnSt1 reqB).2

/-- Scenario state after deleting alpha (id 1) with a healthy backend. -/
def scnSt3 : State := (delete_bot true scnSt2 1).2

/-- Command sequence showing port reuse: create alpha (5001), create beta
(5002), delete beta, create gamma — which is handed 5002 again. -/
def cmdsReuse : List Cmd :=
  [ .create (some "c1") reqA, .create (some "c2") reqB,
    .deleteB true 2, .create (some "c3") reqC ]

/-- The base value is a lower bound of the port fold. -/
theorem foldl_port_max_le (bs : List Bot) (a : Nat) :
    a ≤ bs.foldl (fun m x => max m x.port) a := by
  induction bs generalizing a with
  | nil => exact Nat.le_refl a
  | cons c cs ih => exact Nat.le_trans (Nat.le_max_left a c.port) (ih (max a c.port))

/-- The port of every member is bounded by the port fold. -/
theorem foldl_port_max_mem_le (bs : List Bot) (b : Bot) (hb : b ∈ bs) (a : Nat) :
    b.port ≤ bs.foldl (fun m x => max m x.port) a := by
  induction bs generalizing a with
  | nil => cases hb
  | cons c cs ih =>
    cases hb with
    | head =>
      exact Nat.le_trans (Nat.le_max_right a b.port) (foldl_port_max_le cs (max a b.port))
    | tail _ h => exact ih h (max a c.port)

/-- The port fold is attained: it is the base or the port of some member. -/
theorem foldl_port_max_attained (bs : List Bot) (a : Nat) :
    bs.foldl (fun m x => max m x.port) a = a ∨
      ∃ b ∈ bs, bs.foldl (fun m x => max m x.port) a = b.port := by
  induction bs generalizing a with
  | nil => exact Or.inl rfl
  | cons c cs ih =>
    rcases ih (max a c.port) with h | ⟨b, hb, he⟩
    · rcases max_choice a c.port with hm | hm
      · exact Or.inl (by rw [List.foldl_cons, h, hm])
      · exact Or.inr ⟨c, List.mem_cons_self c cs, by rw [List.foldl_cons, h, hm]⟩
    · exact Or.inr ⟨b, List.mem_cons_of_mem c hb, he⟩

/-- Any persisted port is strictly below the next allocated port. -/
theorem port_lt_next (bots : List Bot) (b : Bot) (hb : b ∈ bots) :
    b.port < get_next_available_port bots := by
  cases bots with
  | nil => cases hb
  | cons c cs =>
    have hle : b.port ≤ cs.foldl (fun m x => max m x.port) c.port := by
      cases hb with
      | head => exact foldl_port_max_le cs b.port
      | tail _ h => exact foldl_port_max_mem_le cs b h c.port
    exact Nat.lt_succ_of_le hle

/-- C4: the port allocator is a pure function of the persisted rows: on an
empty registry it returns the base port 5001, and otherwise it returns
exactly one plus the maximum port on record (the bound is strict for every
row and attained at a row of maximal port). -/
theorem get_next_available_port_spec (bots : List Bot) :
    (bots = [] → get_next_available_port bots = 5001) ∧
    (∀ b ∈ bots, b.port + 1 ≤ get_next_available_port bots) ∧
    (bots ≠ [] → ∃ b ∈ bots, get_next_available_port bots = b.port + 1 ∧
      ∀ c ∈ bots, c.port ≤ b.port) := by
  refine ⟨fun h => by subst h; rfl, fun b hb => port_lt_next bots b hb, fun hne => ?_⟩
  cases bots with
  | nil => exact absurd rfl hne
  | cons c cs =>
    rcases foldl_port_max_attained cs c.port with h | ⟨b, hb, he⟩
    · refine ⟨c, List.mem_cons_self c cs, ?_, ?_⟩
      · show cs.foldl (fun m x => max m x.port) c.port + 1 = c.port + 1
        rw [h]
      · intro x hx
        have := Nat.lt_succ_of_le (le_of_eq h.symm)
        cases hx with
        | head => exact Nat.le_refl c.port
        | tail _ hxs => exact le_of_le_of_eq (foldl_port_max_mem_le cs x hxs c.port) h
    · refine ⟨b, List.mem_cons_of_mem c hb, ?_, ?_⟩
      · show cs.foldl (fun m x => max m x.port) c.port + 1 = b.port + 1
        rw [he]
      · intro x hx
        cases hx with
        | head => exact le_of_le_of_eq (foldl_port_max_le cs c.port) he
        | tail _ hxs => exact le_of_le_of_eq (foldl_port_max_mem_le cs x hxs c.port) he

/-- C4 witness: the allocator returns 5001 on the empty registry, and on the
one-row registry `[botA]` it returns the port of botA plus one, with botA the
maximal row. -/
theorem get_next_available_port_spec_witness :
    get_next_available_port [] = 5001 ∧
    get_next_available_port [botA] = botA.port + 1 := by
  constructor
  · exact (get_next_available_port_spec []).1 rfl
  · obtain ⟨b, hb, he, _⟩ :=
      (get_next_available_port_spec [botA]).2.2 (by simp)
    have hbA : b = botA := by simpa using hb
    rw [he, hbA]

/-- Case analysis of `create_bot`: either it fails and leaves the registry
rows untouched, or it succeeds and appends exactly one row whose port is the
answer of the allocator on the pre-state and whose status flag is 1. -/
theorem create_bot_cases (lr : Option String) (st : State) (req : CreateBotRequest) :
    (∃ e, (create_bot lr st req).1 = .error e ∧
      ((create_bot lr st req).2).bots = st.bots) ∨
    (∃ r b, (create_bot lr st req).1 = .ok r ∧
      ((create_bot lr st req).2).bots = st.bots ++ [b] ∧
      b.port = get_next_available_port st.bots ∧ b.is_running = 1) := by
  cases hf : find_by_name st.bots req.name with
  | some b => exact Or.inl ⟨.duplicateName, by simp [create_bot, hf], by simp [create_bot, hf]⟩
  | none =>
    cases lr with
    | none => exact Or.inl ⟨.dockerError, by simp [create_bot, hf], by simp [create_bot, hf]⟩
    | some cid =>
      refine Or.inr ⟨
        { id := next_row_id st.bots, name := req.name,
          webhook_url := "https://" ++ req.name ++ "." ++ BASE_DOMAIN ++ "/webhook",
          message := "✅ Бот создан и запущен!" },
        { id := next_row_id st.bots, name := req.name, token := req.token,
          user_id := req.user_id, port := get_next_available_port st.bots,
          container_id := cid,
          webhook_url := "https://" ++ req.name ++ "." ++ BASE_DOMAIN ++ "/webhook",
          is_running := 1 }, ?_, ?_, rfl, rfl⟩
      · simp [create_bot, hf]
      · simp [create_bot, hf]

/-- C5: a create whose name is already registered fails `DuplicateName`
(HTTP 400) and leaves the whole state — registry rows and artifact files —
exactly as it was; in particular no port or environment is recorded. -/
theorem create_duplicate_name (lr : Option String) (st : State)
    (req : CreateBotRequest) (h : (find_by_name st.bots req.name).isSome = true) :
    create_bot lr st req = (.error .duplicateName, st) ∧
    ApiError.statusCode .duplicateName = 400 := by
  obtain ⟨b, hb⟩ := Option.isSome_iff_exists.mp h
  exact ⟨by simp [create_bot, hb], rfl⟩

/-- C5 witness: creating "alpha" again over the one-row registry `stA` fails
with `DuplicateName` and returns the state unchanged. -/
theorem create_duplicate_name_witness :
    (find_by_name stA.bots reqA.name).isSome = true ∧
    create_bot none stA reqA = (.error .duplicateName, stA) :=
  ⟨by decide, (create_duplicate_name none stA reqA (by decide)).1⟩

/-- C3: a create that passes the name check but whose container launch fails
surfaces `EnvironmentLaunchError` as HTTP 500 and writes no registry row:
the rows after the failed create are exactly the rows before (so in
particular the row count is unchanged). -/
theorem create_launch_failure (st : State) (req : CreateBotRequest)
    (h : find_by_name st.bots req.name = none) :
    (create_bot none st req).1 = .error .dockerError ∧
    ((create_bot none st req).2).bots = st.bots ∧
    ((create_bot none st req).2).bots.length = st.bots.length ∧
    ApiError.statusCode .dockerError = 500 := by
  refine ⟨?_, ?_, ?_, rfl⟩ <;> simp [create_bot, h]

/-- C3 witness: creating "beta" over `stA` with a failing Docker launch
errors out with status-500 `dockerError` and leaves the single row of `stA`
in place. -/
theorem create_launch_failure_witness :
    find_by_name stA.bots reqB.name = none ∧
    (create_bot none stA reqB).1 = .error .dockerError ∧
    ((create_bot none stA reqB).2).bots = stA.bots :=
  ⟨by decide, (create_launch_failure stA reqB (by decide)).1,
   (create_launch_failure stA reqB (by decide)).2.1⟩

/-- C6: restart never mutates the state (registry rows, every stored field
including the status flag, and the filesystem are all left unchanged); on a
missing id it fails `NotFound` (404), and on a present id whose container
operation fails it surfaces a fatal HTTP 500 error. -/
theorem restart_no_side_effects (ok : Bool) (st : State) (i : Nat) :
    (restart_bot ok st i).2 = st ∧
    (find_by_id st.bots i = none →
      restart_bot ok st i = (.error .notFound, st) ∧
      ApiError.statusCode .notFound = 404) ∧
    ((find_by_id st.bots i).isSome = true → ok = false →
      restart_bot ok st i = (.error .restartError, st) ∧
      ApiError.statusCode .restartError = 500) := by
  refine ⟨?_, ?_, ?_⟩
  · cases hf : find_by_id st.bots i <;> cases ok <;> simp [restart_bot, hf]
  · intro hf
    exact ⟨by simp [restart_bot, hf], rfl⟩
  · intro hf hok
    obtain ⟨b, hb⟩ := Option.isSome_iff_exists.mp hf
    subst hok
    exact ⟨by simp [restart_bot, hb], rfl⟩

/-- C6 witness: on the one-row state `stA`, restarting the absent id 2 fails
`NotFound`, restarting id 1 with a failing backend fails with the 500 error,
and in that case the state is returned untouched. -/
theorem restart_no_side_effects_witness :
    (restart_bot false stA 1).2 = stA ∧
    restart_bot false stA 2 = (.error .notFound, stA) ∧
    restart_bot false stA 1 = (.error .restartError, stA) :=
  ⟨(restart_no_side_effects false stA 1).1,
   ((restart_no_side_effects false stA 2).2.1 (by decide)).1,
   ((restart_no_side_effects false stA 1).2.2 (by decide) rfl).1⟩

/-- C1: at the failing input — registry `stA` holding the row with id 1,
teardown of the container failing — `delete_bot` does NOT swallow the error:
`logger.error(...)` in the `except` block raises an uncaught `NameError`
(`logger` is never defined in `main.py`), the call fails with HTTP 500, the
registry row survives, and a subsequent get(1) still succeeds. -/
theorem delete_teardown_failure_keeps_row :
    delete_bot false stA 1 = (.error .loggerNameError, stA) ∧
    ApiError.statusCode .loggerNameError = 500 ∧
    get_bot ((delete_bot false stA 1).2) 1 = .ok botA :=
  ⟨rfl, rfl, rfl⟩

/-- Unfolding `stepCmd` on a create command. -/
theorem stepCmd_create (lr : Option String) (st : State) (req : CreateBotRequest) :
    stepCmd st (Cmd.create lr req) = (create_bot lr st req).2 := rfl

/-- Along create-only command sequences the handed-out ports are strictly
sorted, and each one strictly dominates every port persisted at the start. -/
theorem run_ports_sorted : ∀ (cmds : List Cmd) (st : State),
    (∀ c ∈ cmds, c.isCreate = true) →
    List.Pairwise (· < ·) (run_ports cmds st) ∧
    ∀ p ∈ run_ports cmds st, ∀ b ∈ st.bots, b.port < p := by
  intro cmds
  induction cmds with
  | nil =>
    intro st _
    exact ⟨List.Pairwise.nil, fun p hp => nomatch hp⟩
  | cons c cs ih =>
    intro st h
    have hc : c.isCreate = true := h c (List.mem_cons_self c cs)
    have htail : ∀ x ∈ cs, x.isCreate = true := fun x hx => h x (List.mem_cons_of_mem c hx)
    cases c with
    | deleteB ok i => simp [Cmd.isCreate] at hc
    | restartB ok i => simp [Cmd.isCreate] at hc
    | create lr req =>
      rcases create_bot_cases lr st req with ⟨e, he, hbots⟩ | ⟨r, nb, hr, hbots, hport, _⟩
      · have heq : run_ports (Cmd.create lr req :: cs) st =
            run_ports cs (create_bot lr st req).2 := by
          simp [run_ports, he, stepCmd]
        obtain ⟨h1, h2⟩ := ih (create_bot lr st req).2 htail
        refine ⟨heq ▸ h1, ?_⟩
        intro p hp b hb
        rw [heq] at hp
        exact h2 p hp b (by rw [hbots]; exact hb)
      · have heq : run_ports (Cmd.create lr req :: cs) st =
            get_next_available_port st.bots :: run_ports cs (create_bot lr st req).2 := by
          simp [run_ports, hr, stepCmd]
        obtain ⟨h1, h2⟩ := ih (create_bot lr st req).2 htail
        have hnbmem : nb ∈ ((create_bot lr st req).2).bots := by
          rw [hbots]
          exact List.mem_append_right st.bots (List.mem_singleton.mpr rfl)
        refine ⟨?_, ?_⟩
        · rw [heq]
          refine List.pairwise_cons.mpr ⟨?_, h1⟩
          intro q hq
          have := h2 q hq nb hnbmem
          rw [hport] at this
          exact this
        · intro p hp b hb
          rw [heq] at hp
          rcases List.mem_cons.mp hp with hhead | htl
          · rw [hhead]
            exact port_lt_next st.bots b hb
          · exact h2 p htl b (by rw [hbots]; exact List.mem_append_left _ hb)

/-- C2 counterexample: with a delete interleaved, ports handed to successful
creates repeat.  Running create alpha, create beta, delete beta, create gamma
assigns ports 5001, 5002 and then 5002 again — neither strictly increasing
nor pairwise unique, because deleting the instance holding the maximum port
shrinks the source of truth of the allocator. -/
theorem ports_reused_after_delete :
    run_ports cmdsReuse initState = [5001, 5002, 5002] ∧
    ¬ List.Pairwise (· < ·) (run_ports cmdsReuse initState) ∧
    ¬ (run_ports cmdsReuse initState).Nodup := by
  refine ⟨rfl, by decide, by decide⟩

/-- C2 amended: along every sequence of successful create calls with no
interleaved deletes, the assigned ports are strictly increasing and pairwise
unique. -/
theorem create_only_ports_strictly_increasing (cmds : List Cmd)
    (h : ∀ c ∈ cmds, c.isCreate = true) :
    List.Pairwise (· < ·) (run_ports cmds initState) ∧
    (run_ports cmds initState).Nodup :=
  ⟨(run_ports_sorted cmds initState h).1,
   ((run_ports_sorted cmds initState h).1).imp (fun hlt => Nat.ne_of_lt hlt)⟩

/-- C2 amended witness: two concrete creates from the empty state get ports
that are strictly increasing and duplicate-free. -/
theorem create_only_ports_strictly_increasing_witness :
    (∀ c ∈ [Cmd.create (some "c1") reqA, Cmd.create (some "c2") reqB],
      c.isCreate = true) ∧
    (run_ports [Cmd.create (some "c1") reqA, Cmd.create (some "c2") reqB]
      initState).Nodup :=
  ⟨by decide,
   (create_only_ports_strictly_increasing
     [Cmd.create (some "c1") reqA, Cmd.create (some "c2") reqB] (by decide)).2⟩

/-- Every API call preserves the all-rows-running invariant: create only
inserts rows with `is_running = 1` and nothing else ever writes the flag. -/
theorem stepCmd_preserves_running (st : State) (c : Cmd)
    (h : ∀ b ∈ st.bots, b.is_running = 1) :
    ∀ b ∈ (stepCmd st c).bots, b.is_running = 1 := by
  cases c with
  | create lr req =>
    rcases create_bot_cases lr st req with ⟨e, _, hbots⟩ | ⟨r, nb, _, hbots, _, hrun⟩
    · intro b hb
      rw [stepCmd_create, hbots] at hb
      exact h b hb
    · intro b hb
      rw [stepCmd_create, hbots] at hb
      rcases List.mem_append.mp hb with hl | hr2
      · exact h b hl
      · rw [List.mem_singleton.mp hr2]
        exact hrun
  | deleteB ok i =>
    cases hf : find_by_id st.bots i with
    | none =>
      intro b hb
      exact h b (by simpa [stepCmd, delete_bot, hf] using hb)
    | some x =>
      cases ok with
      | true =>
        intro b hb
        have hmem : b ∈ st.bots.filter (fun y => y.id != i) := by
          simpa [stepCmd, delete_bot, hf] using hb
        exact h b (List.mem_of_mem_filter hmem)
      | false =>
        intro b hb
        exact h b (by simpa [stepCmd, delete_bot, hf] using hb)
  | restartB ok i =>
    intro b hb
    apply h
    revert hb
    cases hf : find_by_id st.bots i <;> cases ok <;> simp [stepCmd, restart_bot, hf]

/-- The all-rows-running invariant is preserved by whole command sequences. -/
theorem run_preserves_running (cmds : List Cmd) : ∀ (st : State),
    (∀ b ∈ st.bots, b.is_running = 1) →
    ∀ b ∈ (run cmds st).bots, b.is_running = 1 := by
  induction cmds with
  | nil => exact fun st h => h
  | cons c cs ih =>
    intro st h
    exact ih (stepCmd st c) (stepCmd_preserves_running st c h)

/-- C9: in every state reachable from the empty registry by any sequence of
API calls, every persisted row has `is_running = 1`; the "stopped" status is
unreachable because create inserts the flag as 1 and no other operation ever
writes it. -/
theorem all_rows_running (cmds : List Cmd) :
    ∀ b ∈ (run cmds initState).bots, b.is_running = 1 :=
  run_preserves_running cmds initState (fun _ hb => nomatch hb)

/-- C9 witness: the row inserted by a concrete create from the empty state is
present and carries `is_running = 1`. -/
theorem all_rows_running_witness :
    botA ∈ (run [Cmd.create (some "c1") reqA] initState).bots ∧
    botA.is_running = 1 :=
  ⟨by decide, all_rows_running [Cmd.create (some "c1") reqA] botA (by decide)⟩

/-- C7: the artifact renderer is a pure, total function of its two string
inputs: identical credential and callback URL yield byte-identical
worker-program text; the program text is the fixed template with both inputs
embedded verbatim (each appears as a contiguous substring); and the
dependency-manifest text is a fixed constant, hence also byte-identical
across calls. -/
theorem create_bot_code_deterministic (t1 u1 t2 u2 : String)
    (ht : t1 = t2) (hu : u1 = u2) :
    create_bot_code t1 u1 = create_bot_code t2 u2 ∧
    create_bot_code t1 u1 = botCodePre ++ t1 ++ botCodeMid ++ u1 ++ botCodeSuf ∧
    t1.data <:+: (create_bot_code t1 u1).data ∧
    u1.data <:+: (create_bot_code t1 u1).data ∧
    requirements_text =
      "python-telegram-bot==20.7\nflask==3.0.0\nrequests==2.31.0\nsqlalchemy==2.0.0\n" := by
  subst ht hu
  refine ⟨rfl, rfl, ?_, ?_, rfl⟩
  · refine ⟨botCodePre.data, (botCodeMid ++ u1 ++ botCodeSuf).data, ?_⟩
    simp [create_bot_code, String.data_append, List.append_assoc]
  · refine ⟨(botCodePre ++ t1 ++ botCodeMid).data, botCodeSuf.data, ?_⟩
    simp [create_bot_code, String.data_append, List.append_assoc]

/-- C7 witness: rendering with credential "T" and callback
"https://x/webhook" twice yields the same bytes, namely the template with
both inputs spliced in. -/
theorem create_bot_code_deterministic_witness :
    create_bot_code "T" "https://x/webhook" = create_bot_code "T" "https://x/webhook" ∧
    create_bot_code "T" "https://x/webhook" =
      botCodePre ++ "T" ++ botCodeMid ++ "https://x/webhook" ++ botCodeSuf :=
  ⟨(create_bot_code_deterministic "T" "https://x/webhook" "T" "https://x/webhook"
      rfl rfl).1,
   (create_bot_code_deterministic "T" "https://x/webhook" "T" "https://x/webhook"
      rfl rfl).2.1⟩

/-- Appending different suffixes to the same prefix gives different strings. -/
theorem append_ne_of_data_ne (d s1 s2 : String) (h : s1.data ≠ s2.data) :
    d ++ s1 ≠ d ++ s2 := by
  intro he
  apply h
  have hd := congrArg String.data he
  rw [String.data_append, String.data_append] at hd
  exact List.append_cancel_left hd

/-- C10: create writes the rendered worker program and the manifest under
`/tmp/bots/<name>` before the launch attempt — so after a create whose
launch fails (and equally after a successful one) both files are on disk
with the rendered contents — and delete performs no filesystem operation at
all, leaving the artifact directory and its files unchanged. -/
theorem artifacts_never_removed (st : State) (req : CreateBotRequest)
    (lr : Option String) (i : Nat) (ok : Bool)
    (h : find_by_name st.bots req.name = none) :
    fsRead ((create_bot lr st req).2).fs
        ("/tmp/bots/" ++ req.name ++ "/bot_server.py") =
      some (create_bot_code req.token
        ("https://" ++ req.name ++ "." ++ BASE_DOMAIN ++ "/webhook")) ∧
    fsRead ((create_bot lr st req).2).fs
        ("/tmp/bots/" ++ req.name ++ "/requirements.txt") =
      some requirements_text ∧
    ((delete_bot ok st i).2).fs = st.fs := by
  have hne : ("/tmp/bots/" ++ req.name) ++ "/bot_server.py" ≠
      ("/tmp/bots/" ++ req.name) ++ "/requirements.txt" :=
    append_ne_of_data_ne _ _ _ (by decide)
  have h12 : (("/tmp/bots/" ++ req.name ++ "/bot_server.py") ==
      ("/tmp/bots/" ++ req.name ++ "/requirements.txt")) = false := by
    simpa using hne
  have h21 : (("/tmp/bots/" ++ req.name ++ "/requirements.txt") ==
      ("/tmp/bots/" ++ req.name ++ "/bot_server.py")) = false := by
    simpa using Ne.symm hne
  have hfs : ((create_bot lr st req).2).fs =
      fsWrite (fsWrite st.fs ("/tmp/bots/" ++ req.name ++ "/bot_server.py")
          (create_bot_code req.token
            ("https://" ++ req.name ++ "." ++ BASE_DOMAIN ++ "/webhook")))
        ("/tmp/bots/" ++ req.name ++ "/requirements.txt") requirements_text := by
    cases lr <;> simp [create_bot, h]
  refine ⟨?_, ?_, ?_⟩
  · rw [hfs]
    simp [fsRead, fsWrite, h12, h21]
    exact ⟨_, Or.inl ⟨hne, rfl⟩⟩
  · rw [hfs]
    simp [fsRead, fsWrite]
  · cases hf : find_by_id st.bots i <;> cases ok <;> simp [delete_bot, hf]

/-- C10 witness: a failed-launch create of "beta" over `stA` leaves the
rendered worker program on disk, and a successful delete of row 1 leaves the
filesystem untouched. -/
theorem artifacts_never_removed_witness :
    find_by_name stA.bots reqB.name = none ∧
    fsRead ((create_bot none stA reqB).2).fs
        ("/tmp/bots/" ++ reqB.name ++ "/bot_server.py") =
      some (create_bot_code reqB.token
        ("https://" ++ reqB.name ++ "." ++ BASE_DOMAIN ++ "/webhook")) ∧
    ((delete_bot true stA 1).2).fs = stA.fs :=
  ⟨by decide, (artifacts_never_removed stA reqB none 1 true (by decide)).1,
   (artifacts_never_removed stA reqB none 1 true (by decide)).2.2⟩

/-- C8: the end-to-end scenario from the empty registry: create alpha gets
id 1, port 5001 and callback "https://alpha.bothost.local/webhook"; create
beta gets id 2 and port 5002; list("u1") returns both; after deleting
the id of alpha, get(1) fails NotFound and list("u1") returns only beta. -/
theorem end_to_end_scenario :
    (create_bot (some "c1") initState reqA).1 =
      .ok { id := 1, name := "alpha",
            webhook_url := "https://alpha.bothost.local/webhook",
            message := "✅ Бот создан и запущен!" } ∧
    scnSt1.bots.map (fun b => (b.id, b.name, b.port, b.webhook_url)) =
      [(1, "alpha", 5001, "https://alpha.bothost.local/webhook")] ∧
    (create_bot (some "c2") scnSt1 reqB).1 =
      .ok { id := 2, name := "beta",
            webhook_url := "https://beta.bothost.local/webhook",
            message := "✅ Бот создан и запущен!" } ∧
    scnSt2.bots.map (fun b => (b.id, b.name, b.port)) =
      [(1, "alpha", 5001), (2, "beta", 5002)] ∧
    (list_bots scnSt2 "u1").map (fun b => (b.id, b.name)) =
      [(1, "alpha"), (2, "beta")] ∧
    (delete_bot true scnSt2 1).1 = .ok "✅ Бот удален" ∧
    get_bot scnSt3 1 = .error .notFound ∧
    (list_bots scnSt3 "u1").map (fun b => (b.id, b.name)) = [(2, "beta")] :=
  ⟨rfl, rfl, rfl, rfl, rfl, rfl, rfl, rfl⟩

end BotHost
